import Mathlib

/-!
Shallow embedding of the issue-discovery core of the `giteasy` repository
(`src/services/github.ts`, `src/components/Dashboard.tsx`), together with
theorems settling the spec's claims about it.

Modelling conventions:
* JS strings are Lean `String`s; `String.prototype.includes`,
  `String.prototype.toLowerCase`, `String.prototype.split` and
  `Array.prototype.join` are re-implemented below on `List Char` so that every
  definition reduces in the kernel.
* ISO-8601 timestamps are modelled by their epoch-millisecond value, i.e. the
  number `new Date(s).getTime()` that the code immediately converts them to.
* `fetch` and the browser are modelled by an explicit environment (`Env`) of
  response oracles; a thrown `Error` is `Except.error` carrying its message.
* JS floating-point arithmetic in the hybrid score is modelled over `ℝ`.
* `Array.prototype.sort` is stable (ECMAScript 2019); for the consistent
  comparators used here it is modelled by the stable `List.mergeSort` with
  `le a b := comparator a b ≤ 0`.
-/

namespace GitEasy

/-- Character-list core of JS `String.prototype.startsWith`. -/
def isPrefixOfCL : List Char → List Char → Bool
  | [], _ => true
  | _ :: _, [] => false
  | a :: as, b :: bs => a == b && isPrefixOfCL as bs

/-- Character-list core of JS `String.prototype.includes`. -/
def isInfixCL (pat : List Char) : List Char → Bool
  | [] => isPrefixOfCL pat []
  | b :: bs => isPrefixOfCL pat (b :: bs) || isInfixCL pat bs

/-- JS `s.includes(pat)`. -/
def includes (s pat : String) : Bool :=
  isInfixCL pat.toList s.toList

/-- Number of positions of `s` (all suffixes, the empty one included) at which
`pat` occurs; used to state "appears exactly once, no duplicate clause". -/
def countOccurCL (pat : List Char) : List Char → Nat
  | [] => if isPrefixOfCL pat [] then 1 else 0
  | b :: bs => (if isPrefixOfCL pat (b :: bs) then 1 else 0) + countOccurCL pat bs

/-- Number of occurrences of `pat` in `s`. -/
def countOccur (s pat : String) : Nat :=
  countOccurCL pat.toList s.toList

/-- JS `String.prototype.toLowerCase`, character-wise (ASCII; every string the
code lowercases is ASCII). -/
def toLowerStr (s : String) : String :=
  String.mk (s.toList.map Char.toLower)

/-- Character-list core of JS `String.prototype.split` with a one-character
separator: `"".split(c) = [""]`, separators delimit (possibly empty) groups. -/
def splitCL (c : Char) : List Char → List (List Char)
  | [] => [[]]
  | x :: xs =>
    if x == c then [] :: splitCL c xs
    else
      match splitCL c xs with
      | [] => [[x]]
      | g :: gs => (x :: g) :: gs

/-- JS `s.split(sep)` for a one-character separator. -/
def jsSplit (s : String) (sep : Char) : List String :=
  (splitCL sep s.toList).map String.mk

/-- JS `Array.prototype.join(sep)`. -/
def joinWith (sep : String) : List String → String
  | [] => ""
  | [x] => x
  | x :: y :: rest => x ++ sep ++ joinWith sep (y :: rest)

/-- JS truthiness of an optional string parameter (`undefined` and `""` are
falsy). -/
def jsTruthy : Option String → Bool
  | none => false
  | some s => s ≠ ""

/-- `labels` entry of a `GitHubIssue` (`{ name, color }`). -/
structure Label where
  name : String
  color : String
deriving DecidableEq, Repr

/-- `GitHubIssue` of `src/services/github.ts`. Timestamps are epoch
milliseconds (see module header); `reactions_total` is the value of
`(issue as any).reactions?.total_count || 0`; `repository_stars` is the extra
field spread onto an issue by the two-stage strategy (`none` = JS
`undefined`); `user_login` is `user.login`; `assignee` is its login when
present. -/
structure GitHubIssue where
  id : Int
  number : Int
  title : String
  body : String
  state : String
  created_at : Int
  updated_at : Int
  labels : List Label
  user_login : String
  repository_url : String
  html_url : String
  comments : Int
  assignee : Option String
  reactions_total : Int
  repository_stars : Option Int
deriving DecidableEq, Repr

/-- `GitHubRepository` of `src/services/github.ts` (fields read by the
modelled code; `updated_at` in epoch milliseconds, `forks_count` is the value
of `(repo as any).forks_count`). -/
structure GitHubRepository where
  id : Int
  name : String
  full_name : String
  stargazers_count : Int
  open_issues_count : Int
  language : String
  updated_at : Int
  forks_count : Int
deriving DecidableEq, Repr

/-- The `beginnerLabels` allowlist of `GitHubService`. -/
def beginnerLabels : List String :=
  [ "good first issue"
  , "good-first-issue"
  , "beginner"
  , "beginner-friendly"
  , "easy"
  , "starter"
  , "newcomer"
  , "first-timers-only"
  , "up-for-grabs"
  , "help wanted"
  , "documentation"
  , "docs"
  , "typo"
  , "enhancement"
  , "feature"
  , "hacktoberfest"
  , "low-hanging-fruit"
  , "easy-fix"
  , "junior-job" ]

/-- Lowercased label names of an issue: `issue.labels.map(l => l.name.toLowerCase())`. -/
def lowerLabels (issue : GitHubIssue) : List String :=
  issue.labels.map (fun l => toLowerStr l.name)

/-- The "extended categorization for all issue types" tail of
`categorizeIssue`, reached when no beginner-label branch returned. -/
def categorizeIssueExtended (title : String) (labels : List String) : String :=
  if labels.any (fun l => includes l "feature" || includes l "new feature") || includes title "add " || includes title "implement" then "feature"
  else if labels.any (fun l => includes l "performance" || includes l "optimization") || includes title "optimize" || includes title "performance" then "performance"
  else if labels.any (fun l => includes l "ui" || includes l "ux" || includes l "design") || includes title "ui" || includes title "design" then "ui-ux"
  else if labels.any (fun l => includes l "test" || includes l "testing") || includes title "test" then "testing"
  else if labels.any (fun l => includes l "refactor" || includes l "cleanup") || includes title "refactor" || includes title "cleanup" then "refactoring"
  else if labels.any (fun l => includes l "accessibility" || includes l "a11y") || includes title "accessibility" then "accessibility"
  else if labels.any (fun l => includes l "api") || includes title "api" then "api"
  else if labels.any (fun l => includes l "database" || includes l "db") || includes title "database" then "database"
  else if labels.any (fun l => includes l "deploy" || includes l "ci" || includes l "cd") || includes title "deploy" then "deployment"
  else if labels.any (fun l => includes l "security" || includes l "vulnerability") then "security"
  else if labels.any (fun l => includes l "bug" || includes l "fix") || includes title "bug" || includes title "error" then "bug"
  else if labels.any (fun l => includes l "feature" || includes l "enhancement") || includes title "feature" then "enhancement"
  else if labels.any (fun l => includes l "typo" || includes l "spelling") then "typo"
  else "other"

/-- `GitHubService.categorizeIssue`. The four beginner branches run under the
`beginnerLabels` guard; when none of them matches, control falls through to
the extended categorization, exactly as in the source. -/
def categorizeIssue (issue : GitHubIssue) : String :=
  let title := toLowerStr issue.title
  let labels := lowerLabels issue
  if labels.any (fun l => beginnerLabels.any (fun bl => includes l bl)) then
    if labels.any (fun l => includes l "good first issue" || includes l "good-first-issue") then "good-first-issue"
    else if labels.any (fun l => includes l "documentation" || includes l "docs") then "documentation"
    else if labels.any (fun l => includes l "beginner" || includes l "easy") then "beginner-friendly"
    else if labels.any (fun l => includes l "help wanted" || includes l "up-for-grabs") then "help-wanted"
    else categorizeIssueExtended title labels
  else categorizeIssueExtended title labels

/-- `GitHubService.getPriorityFromIssue`. -/
def getPriorityFromIssue (issue : GitHubIssue) : String :=
  let labels := lowerLabels issue
  if labels.any (fun l => beginnerLabels.any (fun bl => includes l bl)) then "low"
  else if labels.any (fun l => includes l "critical" || includes l "urgent" || includes l "high") then "high"
  else if labels.any (fun l => includes l "medium" || includes l "important") then "medium"
  else "low"

/-- `GitHubService.getDifficultyFromIssue`. -/
def getDifficultyFromIssue (issue : GitHubIssue) : String :=
  let labels := lowerLabels issue
  let title := toLowerStr issue.title
  if labels.any (fun l =>
      includes l "good first issue" ||
      includes l "beginner" ||
      includes l "easy" ||
      includes l "starter" ||
      includes l "first-timers-only" ||
      includes l "documentation" ||
      includes l "typo") then "beginner"
  else if labels.any (fun l =>
      includes l "advanced" ||
      includes l "complex" ||
      includes l "architecture" ||
      includes l "performance" ||
      includes l "security") || includes title "refactor" || includes title "optimize" then "advanced"
  else "intermediate"

/-- Status-line fallback of `makeRequest`: the string `HTTP <status>`. -/
def httpStatusMessage (status : Nat) : String :=
  "HTTP " ++ toString status

/-- Error-message computation of `GitHubService.makeRequest` for a non-success
response. `parsedBody` models `await response.json().catch(...)` together with
the `message` lookup: `none` = the body is not JSON (the `catch` substitutes
`{ message: 'Unknown error' }`); `some m` = the body parsed as JSON whose
`message` field is `m` (`none` = absent, i.e. JS `undefined`). The final
`error.message || ...` treats `undefined` and `""` as falsy. -/
def makeRequestErrorMessage (status : Nat) (parsedBody : Option (Option String)) : String :=
  let errorMessage : Option String :=
    match parsedBody with
    | none => some "Unknown error"
    | some m => m
  match errorMessage with
  | some m => if m = "" then httpStatusMessage status else m
  | none => httpStatusMessage status

/-- An HTTP response as seen by `makeRequest`: `ok`, `status`, and the parse
of its body in the sense of `makeRequestErrorMessage`. -/
structure HttpResponse where
  ok : Bool
  status : Nat
  body : Option (Option String)
deriving DecidableEq, Repr

/-- The error, if any, raised by `makeRequest` on a given response (`none` on
a success response). -/
def makeRequestError (resp : HttpResponse) : Option String :=
  if resp.ok then none
  else some (makeRequestErrorMessage resp.status resp.body)

/-- Issue-search query of `searchBeginnerIssues` (single-stage path): base
predicate, `label:` clause (defaulting to `"good first issue"`), optional
`language:` clause, and the `comments:>=1 comments:<=10` quality filter. -/
def buildIssueSearchQuery (language label : Option String) : String :=
  let query := "is:issue is:open"
  let query :=
    if jsTruthy label then query ++ " label:\"" ++ label.getD "" ++ "\""
    else query ++ " label:\"good first issue\""
  let query :=
    if jsTruthy language then query ++ " language:" ++ language.getD ""
    else query
  query ++ " comments:>=1 comments:<=10"

/-- Candidate-repository query of `searchRecentIssuesFromStarredRepos`
(State A): topic OR-clause, optional `language:` clause, `stars:>500`. -/
def buildStarredRepoQuery (language : Option String) : String :=
  let repoQuery := "topic:good-first-issue OR topic:beginner-friendly OR topic:hacktoberfest"
  let repoQuery :=
    if jsTruthy language then repoQuery ++ " language:" ++ language.getD ""
    else repoQuery
  repoQuery ++ " stars:>500"

/-- Scoped issue query of `searchRecentIssuesFromStarredRepos` (State B):
label clause, parenthesised `repo:` OR-filter over the candidate names, and
the loosened `comments:>=1 comments:<=15` quality filter. -/
def buildScopedIssueQuery (label : Option String) (repoNames : List String) : String :=
  let issueQuery := "is:issue is:open"
  let issueQuery :=
    if jsTruthy label then issueQuery ++ " label:\"" ++ label.getD "" ++ "\""
    else issueQuery ++ " label:\"good first issue\""
  let repoFilter := joinWith " OR " (repoNames.map (fun name => "repo:" ++ name))
  let issueQuery := issueQuery ++ " (" ++ repoFilter ++ ")"
  issueQuery ++ " comments:>=1 comments:<=15"

/-- Sort keys accepted by `searchBeginnerIssues`. -/
inductive IssueSort
  | updated
  | stars
  | created
deriving DecidableEq, Repr

/-- Render of an `IssueSort` as the literal of the source. -/
def IssueSort.name : IssueSort → String
  | .updated => "updated"
  | .stars => "stars"
  | .created => "created"

/-- Numeric key compared by the client-side comparator of
`searchBeginnerIssues` for each sort key: `stars` reads
`reactions?.total_count || 0`, the other two read the timestamps. -/
def issueKey : IssueSort → GitHubIssue → Int
  | .stars, i => i.reactions_total
  | .updated, i => i.updated_at
  | .created, i => i.created_at

/-- Client-side comparator of `searchBeginnerIssues`: primary key descending,
the secondary key breaking primary ties when supplied and distinct. -/
def issueComparison (primarySort : IssueSort) (secondarySort : Option IssueSort)
    (a b : GitHubIssue) : Int :=
  let comparison := issueKey primarySort b - issueKey primarySort a
  match secondarySort with
  | some s =>
    if comparison = 0 ∧ s ≠ primarySort then issueKey s b - issueKey s a
    else comparison
  | none => comparison

/-- The client-side `response.items.sort(...)` of `searchBeginnerIssues`:
JS stable sort under the comparator, modelled by `List.mergeSort`. -/
def sortIssuesClient (primarySort : IssueSort) (secondarySort : Option IssueSort)
    (items : List GitHubIssue) : List GitHubIssue :=
  items.mergeSort (fun a b => issueComparison primarySort secondarySort a b ≤ 0)

/-- Sort keys accepted by `searchRepositories` / `searchBeginnerRepos`. -/
inductive RepoSort
  | stars
  | updated
  | forks
deriving DecidableEq, Repr

/-- Numeric key compared by the secondary-sort comparator of
`searchRepositories`. -/
def repoKey : RepoSort → GitHubRepository → Int
  | .stars, r => r.stargazers_count
  | .updated, r => r.updated_at
  | .forks, r => r.forks_count

/-- Client-side step of `searchRepositories` (identical in
`searchBeginnerRepos`): when a secondary sort distinct from the primary is
supplied, re-sort the platform-returned list by the secondary key alone,
descending; otherwise return the list as the platform sent it. -/
def searchRepositoriesClientSort (primarySort : RepoSort) (secondarySort : Option RepoSort)
    (items : List GitHubRepository) : List GitHubRepository :=
  match secondarySort with
  | some s =>
    if s ≠ primarySort then
      items.mergeSort (fun a b => repoKey s b - repoKey s a ≤ 0)
    else items
  | none => items

/-- Response oracles of the outside world: one function per endpoint family,
taking the request's distinguishing parameters (`q`, `sort`, `per_page` for
the search endpoints — `order` is the constant `desc`; `owner`, `repo` for
the repository-issues endpoint, called with its defaults `state=open`,
`sort=updated`, `per_page=100`). `Except.error` is a thrown `Error` message.
`toLocaleDateString` is the browser's locale renderer of an epoch-millisecond
date. -/
structure Env where
  searchRepositories : String → String → Nat → Except String (List GitHubRepository)
  searchIssues : String → String → Nat → Except String (List GitHubIssue)
  getRepositoryIssues : String → String → Except String (List GitHubIssue)
  toLocaleDateString : Int → String

/-- Single-stage body of `searchBeginnerIssues` (everything after the
two-stage special case): build the query, request `/search/issues` with the
`stars`-to-`reactions` sort mapping and `per_page=100`, client-sort, and trim
to at most 50 items. -/
def searchBeginnerIssuesBase (env : Env) (language label : Option String)
    (primarySort : IssueSort) (secondarySort : Option IssueSort) :
    Except String (List GitHubIssue) :=
  let query := buildIssueSearchQuery language label
  match env.searchIssues query (if primarySort = .stars then "reactions" else primarySort.name) 100 with
  | .error e => .error e
  | .ok items =>
    let sorted := sortIssuesClient primarySort secondarySort items
    .ok (if sorted.length > 50 then sorted.take 50 else sorted)

/-- `GitHubService.calculateHybridScore` over ℝ: `now` and `updated_at` in
epoch milliseconds, `log10` is `Real.logb 10`. -/
noncomputable def calculateHybridScore (now : ℝ) (updated_at : Int) (repoStars : Int) : ℝ :=
  let issueAge : ℝ := now - (updated_at : ℝ)
  let daysSinceUpdate : ℝ := issueAge / (1000 * 60 * 60 * 24)
  let recencyScore : ℝ := max 0 (100 - daysSinceUpdate)
  let popularityScore : ℝ := Real.logb 10 (max 1 (repoStars : ℝ)) * 10
  recencyScore * 0.6 + popularityScore * 0.4

/-- `issue.repository_url.split('/').slice(-2).join('/')`: the issue-to-repository
join key. -/
def repoFullNameOfUrl (url : String) : String :=
  let parts := jsSplit url '/'
  joinWith "/" (parts.drop (parts.length - 2))

/-- Enhancement step of the two-stage strategy: spread
`repository_stars: repo?.stargazers_count || 0` onto the issue, the repository
found by full name among the candidate repositories. -/
def enhanceIssue (repos : List GitHubRepository) (issue : GitHubIssue) : GitHubIssue :=
  let repoFullName := repoFullNameOfUrl issue.repository_url
  let found := repos.find? (fun r => r.full_name == repoFullName)
  { issue with repository_stars := some ((found.map GitHubRepository.stargazers_count).getD 0) }

/-- Final sort of the two-stage strategy: descending by hybrid score (on the
two-stage path `repository_stars` is always set; `getD 0` renders the
`undefined`-free access of the source). -/
noncomputable def scoreSort (now : ℝ) (items : List GitHubIssue) : List GitHubIssue :=
  items.mergeSort (fun a b =>
    calculateHybridScore now b.updated_at (b.repository_stars.getD 0)
      ≤ calculateHybridScore now a.updated_at (a.repository_stars.getD 0))

/-- `GitHubService.searchRecentIssuesFromStarredRepos`: State A (candidate
repositories, `sort=stars`, `per_page=20`, top 10 names kept), State B (scoped
issue search, `sort=updated`, `per_page=50`), enhancement and hybrid-score
sort; any thrown error falls back to
`searchBeginnerIssues(language, label, 'updated')`, which (its special case
being disabled by `secondarySort = undefined`) is `searchBeginnerIssuesBase`
at sort key `updated`. -/
noncomputable def searchRecentIssuesFromStarredRepos (env : Env) (now : ℝ)
    (language label : Option String) : Except String (List GitHubIssue) :=
  let repoQuery := buildStarredRepoQuery language
  match env.searchRepositories repoQuery "stars" 20 with
  | .error _ => searchBeginnerIssuesBase env language label .updated none
  | .ok repoItems =>
    let repoNames := (repoItems.map GitHubRepository.full_name).take 10
    let issueQuery := buildScopedIssueQuery label repoNames
    match env.searchIssues issueQuery "updated" 50 with
    | .error _ => searchBeginnerIssuesBase env language label .updated none
    | .ok issueItems =>
      let enhancedIssues := issueItems.map (enhanceIssue repoItems)
      .ok (scoreSort now enhancedIssues)

/-- `GitHubService.searchBeginnerIssues`: the hybrid two-stage strategy is
triggered exactly by `primarySort = 'updated' ∧ secondarySort = 'stars'`. -/
noncomputable def searchBeginnerIssues (env : Env) (now : ℝ) (language label : Option String)
    (primarySort : IssueSort) (secondarySort : Option IssueSort) :
    Except String (List GitHubIssue) :=
  if primarySort = .updated ∧ secondarySort = some .stars then
    searchRecentIssuesFromStarredRepos env now language label
  else
    searchBeginnerIssuesBase env language label primarySort secondarySort

/-- `Repository` of `src/types.ts` (fields read by the modelled code). -/
structure Repository where
  id : Int
  name : String
  full_name : String
  description : String
  stargazers_count : Int
  open_issues_count : Int
  language : String
deriving DecidableEq, Repr

/-- `Issue` of `src/types.ts`, as built by `Dashboard.fetchAllIssues`. -/
structure Issue where
  id : Int
  title : String
  type : String
  priority : String
  difficulty : String
  status : String
  createdAt : String
  repository : String
  repositoryFullName : String
  url : String
  author : String
  labels : List String
  comments : Int
  assignee : Option String
deriving DecidableEq, Repr

/-- Mapping of one raw issue to a dashboard `Issue` inside
`Dashboard.fetchAllIssues` (the body of the inner `.map`). -/
def toDashboardIssue (env : Env) (repo : Repository) (issue : GitHubIssue) : Issue :=
  { id := issue.id
  , title := issue.title
  , type := categorizeIssue issue
  , priority := getPriorityFromIssue issue
  , difficulty := getDifficultyFromIssue issue
  , status := issue.state
  , createdAt := env.toLocaleDateString issue.created_at
  , repository := repo.name
  , repositoryFullName := repo.full_name
  , url := issue.html_url
  , author := issue.user_login
  , labels := issue.labels.map Label.name
  , comments := issue.comments
  , assignee := issue.assignee }

/-- Per-repository fetch of `Dashboard.fetchAllIssues`: destructure
`owner/repoName` from the full name, fetch the repository's issues, keep the
first 20 and map them to dashboard issues; the per-repository `catch` turns
any thrown error into the empty contribution. -/
def safeFetchRepoIssues (env : Env) (repo : Repository) : List Issue :=
  let parts := jsSplit repo.full_name '/'
  let owner := parts.getD 0 ""
  let repoName := parts.getD 1 ""
  match env.getRepositoryIssues owner repoName with
  | .error _ => []
  | .ok githubIssues => (githubIssues.take 20).map (toDashboardIssue env repo)

/-- The batching loop of `Dashboard.fetchAllIssues` with its literal
`batchSize = 3`: `slice(i, i + 3)` groups in order. -/
def batchesOf3 : List α → List (List α)
  | [] => []
  | x :: xs => (x :: xs).take 3 :: batchesOf3 ((x :: xs).drop 3)
termination_by l => l.length
decreasing_by simp [List.length_drop]; omega

/-- `Dashboard.fetchAllIssues`: batches of 3, per-repository fault-tolerant
fetches joined per batch (`Promise.all` keeps batch order), batches
concatenated sequentially, then the category filter
`userData.issueTypes.includes(issue.type)`. -/
def fetchAllIssues (env : Env) (repositories : List Repository)
    (issueTypes : List String) : List Issue :=
  let batches := batchesOf3 repositories
  let allIssuesData := (batches.map (fun batch => (batch.map (safeFetchRepoIssues env)).flatten)).flatten
  allIssuesData.filter (fun issue => issueTypes.contains issue.type)

/-! Concrete inputs used by counterexamples and witnesses. -/

/-- Issue of the C8 scenario: labels `["good first issue", "bug"]`, title
"Fix crash on startup". -/
def scenarioIssue : GitHubIssue :=
  { id := 1, number := 1, title := "Fix crash on startup", body := "", state := "open"
  , created_at := 0, updated_at := 0
  , labels := [⟨"good first issue", "7057ff"⟩, ⟨"bug", "d73a4a"⟩]
  , user_login := "alice", repository_url := "", html_url := "", comments := 2
  , assignee := none, reactions_total := 0, repository_stars := none }

/-- Issue carrying the beginner-signal label `enhancement` together with the
bug-signal label `bug`, and a title that matches no title heuristic. -/
def enhancementBugIssue : GitHubIssue :=
  { scenarioIssue with id := 2, title := "", labels := [⟨"enhancement", "a2eeef"⟩, ⟨"bug", "d73a4a"⟩] }

/-- Issue carrying `documentation` and `bug` labels. -/
def docBugIssue : GitHubIssue :=
  { scenarioIssue with id := 3, title := "", labels := [⟨"documentation", "0075ca"⟩, ⟨"bug", "d73a4a"⟩] }

/-- Issue carrying `enhancement` and `critical` labels. -/
def enhancementCriticalIssue : GitHubIssue :=
  { scenarioIssue with id := 4, title := "", labels := [⟨"enhancement", "a2eeef"⟩, ⟨"critical", "b60205"⟩] }

/-- Non-success response whose body is not JSON. -/
def notJsonResponse : HttpResponse :=
  { ok := false, status := 500, body := none }

/-- Monitored repository number `n` of the aggregation witness. -/
def wRepo (n : Nat) : Repository :=
  { id := Int.ofNat n, name := "r" ++ toString n, full_name := "o/r" ++ toString n
  , description := "", stargazers_count := 10, open_issues_count := 1, language := "Go" }

/-- Environment of the aggregation witness: every repository's issues fetch
succeeds with the scenario issue, except repository `r3`, whose fetch
throws. -/
def batchEnv : Env :=
  { searchRepositories := fun _ _ _ => .error "unused"
  , searchIssues := fun _ _ _ => .error "unused"
  , getRepositoryIssues := fun _ name => if name = "r3" then .error "boom" else .ok [scenarioIssue]
  , toLocaleDateString := fun _ => "1/1/1970" }

/-- Platform-returned repository with many stars but an old update. -/
def starRepoA : GitHubRepository :=
  { id := 1, name := "a", full_name := "x/a", stargazers_count := 10
  , open_issues_count := 0, language := "Go", updated_at := 1, forks_count := 0 }

/-- Platform-returned repository with fewer stars but a recent update. -/
def starRepoB : GitHubRepository :=
  { id := 2, name := "b", full_name := "x/b", stargazers_count := 5
  , open_issues_count := 0, language := "Go", updated_at := 9, forks_count := 0 }

/-- Issue with many reactions, updated early. -/
def reactIssueA : GitHubIssue :=
  { scenarioIssue with id := 10, reactions_total := 7, updated_at := 1 }

/-- Issue with equally many reactions, updated late. -/
def reactIssueB : GitHubIssue :=
  { scenarioIssue with id := 11, reactions_total := 7, updated_at := 9 }

/-- Environment in which the candidate-repository search succeeds with zero
repositories, while the scoped issue search (the only request issued with
`per_page = 50`) succeeds with one issue and the single-stage search (issued
with `per_page = 100`) succeeds with no issues. -/
def zeroRepoEnv : Env :=
  { searchRepositories := fun _ _ _ => .ok []
  , searchIssues := fun _ _ perPage => if perPage = 50 then .ok [scenarioIssue] else .ok []
  , getRepositoryIssues := fun _ _ => .error "unused"
  , toLocaleDateString := fun _ => "" }

/-- Environment in which the candidate-repository search throws. -/
def repoSearchDownEnv : Env :=
  { searchRepositories := fun _ _ _ => .error "down"
  , searchIssues := fun _ _ _ => .ok []
  , getRepositoryIssues := fun _ _ => .error "unused"
  , toLocaleDateString := fun _ => "" }

/-! Helper lemmas. -/

/-- Whichever of the four beginner checks is true, the four-branch conditional
of `categorizeIssue` lands in a beginner category. -/
theorem beginnerBranchChain_mem (c1 c2 c3 c4 : Bool) (rest : String)
    (h : c1 = true ∨ c2 = true ∨ c3 = true ∨ c4 = true) :
    (if c1 then "good-first-issue"
     else if c2 then "documentation"
     else if c3 then "beginner-friendly"
     else if c4 then "help-wanted"
     else rest)
      ∈ ["good-first-issue", "documentation", "beginner-friendly", "help-wanted"] := by
  cases c1 <;> cases c2 <;> cases c3 <;> cases c4 <;> simp_all

/-! Claim theorems. -/

/-- C8: on the issue with labels `["good first issue", "bug"]` and title
"Fix crash on startup", `categorizeIssue` returns `good-first-issue`,
`getPriorityFromIssue` returns `low` and `getDifficultyFromIssue` returns
`beginner`. -/
theorem scenario_issue_classification :
    categorizeIssue scenarioIssue = "good-first-issue"
    ∧ getPriorityFromIssue scenarioIssue = "low"
    ∧ getDifficultyFromIssue scenarioIssue = "beginner" := by
  decide

/-- C9: the single-stage issue query built for language `Go` and label
`help wanted` contains the clause `label:"help wanted"`, the clause
`language:Go` and the quality filter `comments:>=1 comments:<=10`, each
exactly once. -/
theorem query_go_help_wanted_clauses :
    countOccur (buildIssueSearchQuery (some "Go") (some "help wanted")) "label:\"help wanted\"" = 1
    ∧ countOccur (buildIssueSearchQuery (some "Go") (some "help wanted")) "language:Go" = 1
    ∧ countOccur (buildIssueSearchQuery (some "Go") (some "help wanted")) "comments:>=1 comments:<=10" = 1 := by
  decide

/-- C10: an issue carrying a label whose lowercase name contains
`enhancement` or `feature` gets priority `low`, whatever its other labels
carry, because both strings are members of the `beginnerLabels` allowlist,
checked before the urgency labels. -/
theorem priority_low_of_enhancement_or_feature (issue : GitHubIssue)
    (h : issue.labels.any (fun l =>
        includes (toLowerStr l.name) "enhancement" || includes (toLowerStr l.name) "feature") = true) :
    getPriorityFromIssue issue = "low" := by
  obtain ⟨l, hl, hinc⟩ := List.any_eq_true.mp h
  have hmem : toLowerStr l.name ∈ lowerLabels issue := by
    simp only [lowerLabels]
    exact List.mem_map_of_mem _ hl
  have hbl : (beginnerLabels.any fun bl => includes (toLowerStr l.name) bl) = true := by
    rcases (Bool.or_eq_true _ _).mp hinc with h1 | h1
    · exact List.any_eq_true.mpr ⟨"enhancement", by decide, h1⟩
    · exact List.any_eq_true.mpr ⟨"feature", by decide, h1⟩
  have hguard : ((lowerLabels issue).any fun x => beginnerLabels.any fun bl => includes x bl) = true :=
    List.any_eq_true.mpr ⟨toLowerStr l.name, hmem, hbl⟩
  simp only [getPriorityFromIssue, hguard, if_true]

/-- C10 witness: the issue with labels `["enhancement", "critical"]` gets
priority `low`. -/
theorem priority_low_of_enhancement_or_feature_witness :
    (enhancementCriticalIssue.labels.any (fun l =>
        includes (toLowerStr l.name) "enhancement" || includes (toLowerStr l.name) "feature") = true)
    ∧ getPriorityFromIssue enhancementCriticalIssue = "low" :=
  ⟨by decide, priority_low_of_enhancement_or_feature enhancementCriticalIssue (by decide)⟩

/-- C1 counterexample: the issue with labels `["enhancement", "bug"]` and an
empty title carries a beginner-signal label (`enhancement` is on the
allowlist) and a bug-signal label, yet `categorizeIssue` returns `bug`: the
beginner guard passes but none of the four beginner branches matches, so
control falls through to the extended categorization. -/
theorem categorize_enhancement_bug_counterexample :
    (enhancementBugIssue.labels.any fun l =>
        beginnerLabels.any fun bl => includes (toLowerStr l.name) bl) = true
    ∧ (enhancementBugIssue.labels.any fun l => includes (toLowerStr l.name) "bug") = true
    ∧ categorizeIssue enhancementBugIssue = "bug" := by
  decide

/-- C1 (amended): an issue carrying a label whose lowercase name contains one
of the branch substrings `good first issue`, `good-first-issue`,
`documentation`, `docs`, `beginner`, `easy`, `help wanted`, `up-for-grabs`
is categorized into one of the four beginner categories, never `bug`;
beginner-signal labels outside these branch groups (such as `enhancement`)
do not guarantee this. -/
theorem categorize_beginner_branch (issue : GitHubIssue)
    (h : issue.labels.any (fun l =>
        (["good first issue", "good-first-issue", "documentation", "docs",
          "beginner", "easy", "help wanted", "up-for-grabs"] : List String).any
          (fun g => includes (toLowerStr l.name) g)) = true) :
    categorizeIssue issue ∈ ["good-first-issue", "documentation", "beginner-friendly", "help-wanted"] := by
  obtain ⟨l, hl, hany⟩ := List.any_eq_true.mp h
  obtain ⟨g, hg, hinc⟩ := List.any_eq_true.mp hany
  have hmem : toLowerStr l.name ∈ lowerLabels issue := by
    simp only [lowerLabels]
    exact List.mem_map_of_mem _ hl
  have hsub : g ∈ beginnerLabels := by
    fin_cases hg <;> decide
  have hguard : ((lowerLabels issue).any fun x => beginnerLabels.any fun bl => includes x bl) = true :=
    List.any_eq_true.mpr ⟨toLowerStr l.name, hmem, List.any_eq_true.mpr ⟨g, hsub, hinc⟩⟩
  have hone :
      ((lowerLabels issue).any fun x => includes x "good first issue" || includes x "good-first-issue") = true
      ∨ ((lowerLabels issue).any fun x => includes x "documentation" || includes x "docs") = true
      ∨ ((lowerLabels issue).any fun x => includes x "beginner" || includes x "easy") = true
      ∨ ((lowerLabels issue).any fun x => includes x "help wanted" || includes x "up-for-grabs") = true := by
    fin_cases hg
    · exact Or.inl (List.any_eq_true.mpr ⟨toLowerStr l.name, hmem, by simp [hinc]⟩)
    · exact Or.inl (List.any_eq_true.mpr ⟨toLowerStr l.name, hmem, by simp [hinc]⟩)
    · exact Or.inr (Or.inl (List.any_eq_true.mpr ⟨toLowerStr l.name, hmem, by simp [hinc]⟩))
    · exact Or.inr (Or.inl (List.any_eq_true.mpr ⟨toLowerStr l.name, hmem, by simp [hinc]⟩))
    · exact Or.inr (Or.inr (Or.inl (List.any_eq_true.mpr ⟨toLowerStr l.name, hmem, by simp [hinc]⟩)))
    · exact Or.inr (Or.inr (Or.inl (List.any_eq_true.mpr ⟨toLowerStr l.name, hmem, by simp [hinc]⟩)))
    · exact Or.inr (Or.inr (Or.inr (List.any_eq_true.mpr ⟨toLowerStr l.name, hmem, by simp [hinc]⟩)))
    · exact Or.inr (Or.inr (Or.inr (List.any_eq_true.mpr ⟨toLowerStr l.name, hmem, by simp [hinc]⟩)))
  simp only [categorizeIssue, hguard, if_true]
  exact beginnerBranchChain_mem _ _ _ _ _ hone

/-- C1 witness: the issue with labels `["documentation", "bug"]` lands in a
beginner category. -/
theorem categorize_beginner_branch_witness :
    (docBugIssue.labels.any (fun l =>
        (["good first issue", "good-first-issue", "documentation", "docs",
          "beginner", "easy", "help wanted", "up-for-grabs"] : List String).any
          (fun g => includes (toLowerStr l.name) g)) = true)
    ∧ categorizeIssue docBugIssue
        ∈ ["good-first-issue", "documentation", "beginner-friendly", "help-wanted"] :=
  ⟨by decide, categorize_beginner_branch docBugIssue (by decide)⟩

/-- C3 counterexample: on a non-success response whose body does not parse as
JSON, `makeRequest` raises `Unknown error` (substituted by the `catch` and
truthy), not the generic `HTTP <status>` message the claim prescribes. -/
theorem makeRequest_not_json_counterexample :
    makeRequestError notJsonResponse = some "Unknown error"
    ∧ makeRequestError notJsonResponse ≠ some (httpStatusMessage 500) := by
  decide

/-- C3 (amended): on a non-success response the raised message is the
platform's `message` field when the body parses as JSON with a non-empty
`message`; `HTTP <status>` when the body parses as JSON whose `message` is
absent or empty; and `Unknown error` when the body does not parse as JSON. -/
theorem makeRequest_error_message_cases :
    (∀ (status : Nat) (m : String), m ≠ "" → makeRequestErrorMessage status (some (some m)) = m)
    ∧ (∀ status : Nat, makeRequestErrorMessage status (some none) = httpStatusMessage status)
    ∧ (∀ status : Nat, makeRequestErrorMessage status (some (some "")) = httpStatusMessage status)
    ∧ (∀ status : Nat, makeRequestErrorMessage status none = "Unknown error") := by
  refine ⟨fun status m hm => ?_, fun status => rfl, fun status => rfl, fun status => rfl⟩
  simp [makeRequestErrorMessage, hm]

/-- C3 witness: the amended cases at status 404. -/
theorem makeRequest_error_message_cases_witness :
    ("Not Found" : String) ≠ ""
    ∧ makeRequestErrorMessage 404 (some (some "Not Found")) = "Not Found"
    ∧ makeRequestErrorMessage 404 (some none) = httpStatusMessage 404 :=
  ⟨by decide, makeRequest_error_message_cases.1 404 "Not Found" (by decide),
    makeRequest_error_message_cases.2.1 404⟩

/-- C4: the hybrid score equals
`0.6 * max 0 (100 - daysSinceUpdate) + 0.4 * (log10 (max 1 repoStars) * 10)`
with `daysSinceUpdate` the fractional number of days between `now` and the
issue's update time, and the recency contribution is never negative. -/
theorem calculateHybridScore_formula (now : ℝ) (updated_at repoStars : Int) :
    calculateHybridScore now updated_at repoStars
      = 0.6 * max 0 (100 - (now - (updated_at : ℝ)) / (1000 * 60 * 60 * 24))
        + 0.4 * (Real.logb 10 (max 1 (repoStars : ℝ)) * 10)
    ∧ 0 ≤ max (0 : ℝ) (100 - (now - (updated_at : ℝ)) / (1000 * 60 * 60 * 24)) := by
  constructor
  · simp only [calculateHybridScore]
    ring
  · exact le_max_left _ _

/-- C5: at the same instant and with identical `repoStars`, an issue updated
no earlier than another scores no lower. -/
theorem calculateHybridScore_monotone (now : ℝ) (repoStars : Int) (t1 t2 : Int)
    (h : t2 ≤ t1) :
    calculateHybridScore now t2 repoStars ≤ calculateHybridScore now t1 repoStars := by
  have hc : (t2 : ℝ) ≤ (t1 : ℝ) := by exact_mod_cast h
  have hd : (now - (t1 : ℝ)) / (1000 * 60 * 60 * 24) ≤ (now - (t2 : ℝ)) / (1000 * 60 * 60 * 24) := by
    gcongr
  have hm : max (0 : ℝ) (100 - (now - (t2 : ℝ)) / (1000 * 60 * 60 * 24))
      ≤ max (0 : ℝ) (100 - (now - (t1 : ℝ)) / (1000 * 60 * 60 * 24)) :=
    max_le_max le_rfl (by linarith)
  simp only [calculateHybridScore]
  linarith [hm]

/-- C5 witness: an issue updated a day before `now = 0` scores no higher than
one updated at `now`. -/
theorem calculateHybridScore_monotone_witness :
    ((-86400000 : Int) ≤ 0)
    ∧ calculateHybridScore 0 (-86400000) 5 ≤ calculateHybridScore 0 0 5 :=
  ⟨by decide, calculateHybridScore_monotone 0 5 0 (-86400000) (by decide)⟩

/-- Concatenating the batches of 3 restores the repository list. -/
theorem batchesOf3_flatten (l : List α) : (batchesOf3 l).flatten = l := by
  induction l using batchesOf3.induct with
  | case1 => simp [batchesOf3]
  | case2 x xs ih =>
    rw [batchesOf3]
    simp only [List.flatten_cons, ih]
    exact List.take_append_drop 3 (x :: xs)

/-- Flattening per-group mapped results equals mapping over the flattened
groups. -/
theorem flatten_map_flatten (LL : List (List α)) (f : α → List β) :
    (LL.map (fun b => (b.map f).flatten)).flatten = (LL.flatten.map f).flatten := by
  induction LL with
  | nil => rfl
  | cons b rest ih => simp [List.map_append, List.flatten_append, ih]

/-- The batched aggregation is the per-repository concatenation: batching by
3 does not change the resulting list. -/
theorem fetchAllIssues_eq (env : Env) (repositories : List Repository) (issueTypes : List String) :
    fetchAllIssues env repositories issueTypes
      = ((repositories.map (safeFetchRepoIssues env)).flatten).filter
          (fun issue => issueTypes.contains issue.type) := by
  show ((batchesOf3 repositories).map (fun batch => (batch.map (safeFetchRepoIssues env)).flatten)).flatten.filter
      (fun issue => issueTypes.contains issue.type)
    = ((repositories.map (safeFetchRepoIssues env)).flatten).filter
      (fun issue => issueTypes.contains issue.type)
  rw [flatten_map_flatten, batchesOf3_flatten]

/-- C6: a repository whose issues fetch throws contributes the empty list,
and the aggregation over the full repository set equals the aggregation with
that repository removed — no per-repository failure aborts its batch or the
run. -/
theorem fetchAllIssues_fault_tolerant (env : Env) (pre post : List Repository)
    (r : Repository) (types : List String)
    (h : ∃ e, env.getRepositoryIssues ((jsSplit r.full_name '/').getD 0 "")
        ((jsSplit r.full_name '/').getD 1 "") = Except.error e) :
    safeFetchRepoIssues env r = []
    ∧ fetchAllIssues env (pre ++ r :: post) types = fetchAllIssues env (pre ++ post) types := by
  obtain ⟨e, he⟩ := h
  have hempty : safeFetchRepoIssues env r = [] := by
    simp only [safeFetchRepoIssues, he]
  refine ⟨hempty, ?_⟩
  rw [fetchAllIssues_eq, fetchAllIssues_eq]
  simp [List.map_append, List.flatten_append, hempty]

/-- C6 witness: aggregating five repositories where the fetch of `o/r3`
throws yields exactly the aggregation of the other four. -/
theorem fetchAllIssues_fault_tolerant_witness :
    (∃ e, batchEnv.getRepositoryIssues ((jsSplit (wRepo 3).full_name '/').getD 0 "")
        ((jsSplit (wRepo 3).full_name '/').getD 1 "") = Except.error e)
    ∧ fetchAllIssues batchEnv ([wRepo 1, wRepo 2] ++ wRepo 3 :: [wRepo 4, wRepo 5]) ["good-first-issue"]
        = fetchAllIssues batchEnv ([wRepo 1, wRepo 2] ++ [wRepo 4, wRepo 5]) ["good-first-issue"] :=
  ⟨⟨"boom", rfl⟩,
    (fetchAllIssues_fault_tolerant batchEnv [wRepo 1, wRepo 2] [wRepo 4, wRepo 5]
      (wRepo 3) ["good-first-issue"] ⟨"boom", rfl⟩).2⟩

/-- Totality of the `searchBeginnerIssues` comparator. -/
theorem issueComparison_total (p : IssueSort) (s : Option IssueSort) (a b : GitHubIssue) :
    issueComparison p s a b ≤ 0 ∨ issueComparison p s b a ≤ 0 := by
  rcases s with _ | s'
  · simp only [issueComparison]
    omega
  · simp only [issueComparison]
    by_cases hsp : s' = p
    · simp only [hsp, ne_eq, not_true_eq_false, and_false, if_false]
      omega
    · simp only [ne_eq, hsp, not_false_eq_true, and_true]
      split_ifs <;> omega

/-- Transitivity of the `searchBeginnerIssues` comparator. -/
theorem issueComparison_trans (p : IssueSort) (s : Option IssueSort) (a b c : GitHubIssue)
    (hab : issueComparison p s a b ≤ 0) (hbc : issueComparison p s b c ≤ 0) :
    issueComparison p s a c ≤ 0 := by
  rcases s with _ | s'
  · simp only [issueComparison] at hab hbc ⊢
    omega
  · simp only [issueComparison] at hab hbc ⊢
    by_cases hsp : s' = p
    · simp only [hsp, ne_eq, not_true_eq_false, and_false, if_false] at hab hbc ⊢
      omega
    · simp only [ne_eq, hsp, not_false_eq_true, and_true] at hab hbc ⊢
      split_ifs at hab hbc ⊢ <;> omega

/-- The client-side sort of `searchBeginnerIssues` is pairwise ordered under
its comparator. -/
theorem sortIssuesClient_pairwise (p : IssueSort) (s : Option IssueSort)
    (items : List GitHubIssue) :
    (sortIssuesClient p s items).Pairwise (fun a b => issueComparison p s a b ≤ 0) := by
  have h := @List.sorted_mergeSort _
    (fun a b => decide (issueComparison p s a b ≤ 0))
    (fun a b c hab hbc => decide_eq_true
      (issueComparison_trans p s a b c (of_decide_eq_true hab) (of_decide_eq_true hbc)))
    (fun a b => by
      rcases issueComparison_total p s a b with h | h <;> simp [h])
    items
  exact h.imp (fun hx => of_decide_eq_true hx)

/-- C7 counterexample: `searchRepositories` with primary `stars` and
secondary `updated` re-sorts the platform list (here already ordered by
stars descending) by the secondary key alone, so the returned list is no
longer ordered by the primary key. -/
theorem repo_secondary_sort_counterexample :
    List.Pairwise (fun x y => repoKey .stars y ≤ repoKey .stars x) [starRepoA, starRepoB]
    ∧ searchRepositoriesClientSort .stars (some .updated) [starRepoA, starRepoB]
        = [starRepoB, starRepoA]
    ∧ ¬ List.Pairwise (fun x y => repoKey .stars y ≤ repoKey .stars x) [starRepoB, starRepoA] := by
  refine ⟨by decide, ?_, by decide⟩
  simp [searchRepositoriesClientSort, List.mergeSort, List.merge, repoKey, starRepoA, starRepoB]

/-- C7 (amended): in the issue search, the client-sorted list is ordered by
the primary key (descending); among primary-equal items a supplied secondary
key orders them (descending); with no secondary key, primary-equal items keep
the platform order (stability). In the repository search, a secondary key
distinct from the primary re-sorts the list by the secondary key alone, so
items are ordered by the secondary key and the platform (primary) order
survives only among secondary-equal items. -/
theorem sort_composition_amended :
    (∀ (p : IssueSort) (s : Option IssueSort) (items : List GitHubIssue),
        (sortIssuesClient p s items).Pairwise (fun a b => issueKey p b ≤ issueKey p a))
    ∧ (∀ (p s' : IssueSort) (items : List GitHubIssue), s' ≠ p →
        (sortIssuesClient p (some s') items).Pairwise
          (fun a b => issueKey p a = issueKey p b → issueKey s' b ≤ issueKey s' a))
    ∧ (∀ (p : IssueSort) (items : List GitHubIssue) (a b : GitHubIssue),
        [a, b].Sublist items → issueKey p a = issueKey p b →
        [a, b].Sublist (sortIssuesClient p none items))
    ∧ (∀ (p s : RepoSort) (items : List GitHubRepository), s ≠ p →
        (searchRepositoriesClientSort p (some s) items).Pairwise
          (fun a b => repoKey s b ≤ repoKey s a))
    ∧ (∀ (p s : RepoSort) (items : List GitHubRepository) (a b : GitHubRepository), s ≠ p →
        [a, b].Sublist items → repoKey s a = repoKey s b →
        [a, b].Sublist (searchRepositoriesClientSort p (some s) items)) := by
  refine ⟨?_, ?_, ?_, ?_, ?_⟩
  · intro p s items
    refine (sortIssuesClient_pairwise p s items).imp (fun {a b} h => ?_)
    rcases s with _ | s'
    · simp only [issueComparison] at h
      omega
    · simp only [issueComparison] at h
      by_cases hsp : s' = p
      · simp only [hsp, ne_eq, not_true_eq_false, and_false, if_false] at h
        omega
      · simp only [ne_eq, hsp, not_false_eq_true, and_true] at h
        split_ifs at h <;> omega
  · intro p s' items hs'
    refine (sortIssuesClient_pairwise p (some s') items).imp (fun {a b} h => ?_)
    intro heq
    simp only [issueComparison, ne_eq, hs', not_false_eq_true, and_true] at h
    split_ifs at h <;> omega
  · intro p items a b hsub heq
    exact List.pair_sublist_mergeSort
      (fun x y z hxy hyz => decide_eq_true
        (issueComparison_trans p none x y z (of_decide_eq_true hxy) (of_decide_eq_true hyz)))
      (fun x y => by rcases issueComparison_total p none x y with h | h <;> simp [h])
      (decide_eq_true (by simp only [issueComparison]; omega))
      hsub
  · intro p s items hs
    simp only [searchRepositoriesClientSort, ne_eq, hs, not_false_eq_true, if_true]
    have h := @List.sorted_mergeSort _
      (fun a b => decide (repoKey s b - repoKey s a ≤ 0))
      (fun a b c hab hbc => by
        have h1 := of_decide_eq_true hab
        have h2 := of_decide_eq_true hbc
        exact decide_eq_true (by omega))
      (fun a b => by
        by_cases h : repoKey s b - repoKey s a ≤ 0
        · simp [h]
        · simp only [Bool.or_eq_true, decide_eq_true_eq]
          omega)
      items
    refine h.imp (fun {a b} hx => ?_)
    have := of_decide_eq_true hx
    omega
  · intro p s items a b hs hsub heq
    simp only [searchRepositoriesClientSort, ne_eq, hs, not_false_eq_true, if_true]
    exact List.pair_sublist_mergeSort
      (fun x y z hxy hyz => by
        have h1 := of_decide_eq_true hxy
        have h2 := of_decide_eq_true hyz
        exact decide_eq_true (by omega))
      (fun x y => by
        by_cases h : repoKey s y - repoKey s x ≤ 0
        · simp [h]
        · simp only [Bool.or_eq_true, decide_eq_true_eq]
          omega)
      (decide_eq_true (by omega))
      hsub

/-- C7 witness: the amended properties at concrete inputs — two issues with
equal reaction counts keep platform order under primary `stars` with no
secondary, and are ordered by `updated_at` descending among themselves when
secondary `updated` is supplied. -/
theorem sort_composition_amended_witness :
    ([reactIssueA, reactIssueB].Sublist
        (sortIssuesClient .stars none [reactIssueA, reactIssueB]))
    ∧ (sortIssuesClient .stars (some .updated) [reactIssueA, reactIssueB]).Pairwise
        (fun a b => issueKey .stars a = issueKey .stars b → issueKey .updated b ≤ issueKey .updated a) :=
  ⟨sort_composition_amended.2.2.1 .stars [reactIssueA, reactIssueB] reactIssueA reactIssueB
      (List.Sublist.refl _) (by decide),
    sort_composition_amended.2.1 .stars .updated [reactIssueA, reactIssueB] (by decide)⟩

/-- C2 counterexample: when the candidate-repository search (State A)
returns zero repositories, the strategy does not fall back — it issues the
scoped issue search with an empty `repo:` filter and returns whatever that
request yields, which here differs from the single-stage search with sort
`updated`. -/
theorem twoStage_zero_repos_counterexample :
    zeroRepoEnv.searchRepositories (buildStarredRepoQuery none) "stars" 20 = .ok []
    ∧ searchRecentIssuesFromStarredRepos zeroRepoEnv 0 none none
        ≠ searchBeginnerIssuesBase zeroRepoEnv none none .updated none := by
  have h1 : searchRecentIssuesFromStarredRepos zeroRepoEnv 0 none none
      = .ok [enhanceIssue [] scenarioIssue] := by
    simp [searchRecentIssuesFromStarredRepos, zeroRepoEnv, scoreSort]
  have h2 : searchBeginnerIssuesBase zeroRepoEnv none none .updated none
      = .ok [] := by
    simp [searchBeginnerIssuesBase, zeroRepoEnv, sortIssuesClient]
  refine ⟨rfl, ?_⟩
  rw [h1, h2]
  simp

/-- C2 (amended): the two-stage strategy's final result equals the
single-stage issue search with the same language and label and sort key
`updated` whenever the candidate-repository search throws, and whenever the
scoped issue search throws; a State A result of zero repositories by itself
does not trigger this fallback. -/
theorem twoStage_fallback_on_error :
    (∀ (env : Env) (now : ℝ) (language label : Option String) (e : String),
        env.searchRepositories (buildStarredRepoQuery language) "stars" 20 = .error e →
        searchRecentIssuesFromStarredRepos env now language label
          = searchBeginnerIssuesBase env language label .updated none)
    ∧ (∀ (env : Env) (now : ℝ) (language label : Option String)
          (repos : List GitHubRepository) (e : String),
        env.searchRepositories (buildStarredRepoQuery language) "stars" 20 = .ok repos →
        env.searchIssues
            (buildScopedIssueQuery label ((repos.map GitHubRepository.full_name).take 10))
            "updated" 50 = .error e →
        searchRecentIssuesFromStarredRepos env now language label
          = searchBeginnerIssuesBase env language label .updated none) := by
  constructor
  · intro env now language label e h
    simp [searchRecentIssuesFromStarredRepos, h]
  · intro env now language label repos e h1 h2
    simp [searchRecentIssuesFromStarredRepos, h1, h2]

/-- C2 witness: with the candidate-repository search down, the strategy
returns exactly the single-stage `updated` result. -/
theorem twoStage_fallback_on_error_witness :
    repoSearchDownEnv.searchRepositories (buildStarredRepoQuery none) "stars" 20 = .error "down"
    ∧ searchRecentIssuesFromStarredRepos repoSearchDownEnv 0 none none
        = searchBeginnerIssuesBase repoSearchDownEnv none none .updated none :=
  ⟨rfl, twoStage_fallback_on_error.1 repoSearchDownEnv 0 none none "down" rfl⟩

end GitEasy
